import Mathlib

/-!
Verification development for `import_corpus.py` (PNWHerbariaExplorer).

The script ingests four tab-delimited record kinds (occurrences, annotations,
types, media), validates field-level constraints, and batch-loads rows into a
relational sink.  We embed the record decoders (`dictify`), the field
transform helpers, the generic batching/filtering loop of `BaseHandler.handle`,
`BaseHandler.batch_insert`, and the `Validator` operations as executable Lean
definitions, and prove the specification's claims about them.

Python values flowing through the pipeline are strings from the CSV reader,
plus the `None`/`True`/`False`/`int` values the decoders introduce.  We model
them with the `Value` type below and Python dictionaries keyed by field names
with association lists (`Entity`).  Python exceptions are modelled with the
`PyExc` type and `Except`; an uncaught exception is an `Except.error` result.
-/

/-- The dynamic values stored in a decoded row mapping: strings from the CSV
reader, `None`, booleans produced by `transform_invalid_booleans`, and the
integer key produced by `TypesHandler.dictify`. -/
inductive Value where
  | str (s : String)
  | int (n : Int)
  | bool (b : Bool)
  | none
deriving DecidableEq

/-- The Python exception classes the script can raise.  `invalidOperation`
stands for `decimal.InvalidOperation` (a subclass of `ArithmeticError`, not of
`ValueError`). -/
inductive PyExc where
  | valueError
  | indexError
  | typeError
  | invalidOperation
deriving DecidableEq

instance {ε α : Type} [DecidableEq ε] [DecidableEq α] :
    DecidableEq (Except ε α) := fun x y =>
  match x, y with
  | Except.ok a, Except.ok b =>
    if h : a = b then isTrue (by simp [h]) else isFalse (by simp [h])
  | Except.error a, Except.error b =>
    if h : a = b then isTrue (by simp [h]) else isFalse (by simp [h])
  | Except.ok _, Except.error _ => isFalse (by simp)
  | Except.error _, Except.ok _ => isFalse (by simp)

/-- ASCII lowercase of one character (Python `str.lower()`; the tokens the
source lowercases — boolean flags and `Decimal` specials — are ASCII). -/
def asciiLower (c : Char) : Char :=
  if 65 ≤ c.toNat ∧ c.toNat ≤ 90 then Char.ofNat (c.toNat + 32) else c

/-- `s.lower()` on the character list of a string. -/
def pyLower (s : String) : String :=
  String.mk (s.data.map asciiLower)

/-- A decoded row mapping (`dict[str, any]` in the source), as an association
list from field names to values.  Keys are inserted once per field; the
`annotated_by` overwrites in `AnnotationsHandler.dictify` are folded into the
stored value. -/
def Entity : Type := List (String × Value)

instance : DecidableEq Entity := by unfold Entity; infer_instance

/-- `d[key]` lookup.  Every lookup performed by the source is on a key the
decoder has populated, so the `Value.none` default of the missing-key case
(Python would raise `KeyError`) is never exercised. -/
def dget (d : Entity) (key : String) : Value :=
  (List.lookup key d).getD Value.none

/-- Python `==` on the values that reach equality tests (`in` on sets and
lists).  Distinct types compare unequal except for the numeric
`bool`/`int` cross-equality (`True == 1`). -/
def pyEq : Value → Value → Bool
  | Value.str a, Value.str b => a == b
  | Value.int a, Value.int b => a == b
  | Value.bool a, Value.bool b => a == b
  | Value.bool a, Value.int b => (if a then (1 : Int) else 0) == b
  | Value.int a, Value.bool b => a == (if b then (1 : Int) else 0)
  | Value.none, Value.none => true
  | _, _ => false

/-- Python `v in s` membership for a set/list of values. -/
def vmem (v : Value) (s : List Value) : Bool :=
  s.any (fun w => pyEq v w)

/-- Predicate singling out the values that Occurrence decoding can put into
the valid-key set: strings and `None`. -/
def strOrNone : Value → Bool
  | Value.str _ => true
  | Value.none => true
  | _ => false

/-! ### TransformHelper -/

namespace TransformHelper

/-- `transform_empty_to_none(d, fields)`: for each listed field, an empty
string becomes `None`.  (`val == ''` is false for `None`, booleans and
integers, so they pass through unchanged.) -/
def transform_empty_to_none (d : Entity) (fields : List String) : Entity :=
  d.map (fun kv =>
    if kv.fst ∈ fields ∧ kv.snd = Value.str "" then (kv.fst, Value.none) else kv)

/-- `transform_invalid_booleans(d, fields, true_values)`: each listed field
becomes `True` when its lowercase form is among the truthy tokens, else
`False`.  In the source this transform always runs first, on freshly decoded
all-string mappings; a non-string value would raise `AttributeError` in
Python and is left unchanged here as unreachable. -/
def transform_invalid_booleans (d : Entity) (fields : List String)
    (trueValues : List String) : Entity :=
  d.map (fun kv =>
    if kv.fst ∈ fields then
      match kv.snd with
      | Value.str s => (kv.fst, Value.bool (trueValues.contains (pyLower s)))
      | v => (kv.fst, v)
    else kv)

/-- `transform_question_mark_to_none(d, fields)`: the literal token `"?"`
becomes `None` for the listed fields. -/
def transform_question_mark_to_none (d : Entity) (fields : List String) : Entity :=
  d.map (fun kv =>
    if kv.fst ∈ fields ∧ kv.snd = Value.str "?" then (kv.fst, Value.none) else kv)

end TransformHelper

/-! ### Python string parsing primitives

`int(...)` and `Decimal(...)` on the strings the corpus can contain.
Numeric-literal underscores and non-ASCII digit classes are not modelled;
the corpus fields the claims exercise are plain ASCII. -/

/-- Strip leading and trailing whitespace (Python `int`/`Decimal` accept it). -/
def trimWs (l : List Char) : List Char :=
  ((l.dropWhile Char.isWhitespace).reverse.dropWhile Char.isWhitespace).reverse

/-- Split an optional leading sign; returns (isNegative, rest). -/
def stripSign : List Char → Bool × List Char
  | '-' :: l => (true, l)
  | '+' :: l => (false, l)
  | l => (false, l)

/-- Numeric value of a digit string. -/
def digitsVal (l : List Char) : Nat :=
  l.foldl (fun n c => 10 * n + (c.toNat - 48)) 0

/-- Whether Python `int(s)` succeeds: optional whitespace and sign around a
non-empty run of digits. -/
def pyIntOk (s : String) : Bool :=
  let l := (stripSign (trimWs s.data)).snd
  !l.isEmpty && l.all Char.isDigit

/-- Python `int(s)`: parses or raises `ValueError`. -/
def pyInt (s : String) : Except PyExc Int :=
  let t := stripSign (trimWs s.data)
  if !t.snd.isEmpty && t.snd.all Char.isDigit then
    Except.ok (if t.fst then -(digitsVal t.snd : Int) else (digitsVal t.snd : Int))
  else Except.error PyExc.valueError

/-- Split a character list at the first `e`/`E` exponent marker. -/
def splitExp : List Char → List Char × Option (List Char)
  | [] => ([], Option.none)
  | c :: cs =>
    if c = 'e' ∨ c = 'E' then ([], some cs)
    else
      let r := splitExp cs
      (c :: r.fst, r.snd)

/-- A non-empty run of digits. -/
def decDigits (l : List Char) : Bool :=
  !l.isEmpty && l.all Char.isDigit

/-- A decimal mantissa: digits, optionally with a fractional point, with at
least one digit overall. -/
def decMantOk (l : List Char) : Bool :=
  let ip := l.takeWhile Char.isDigit
  match l.dropWhile Char.isDigit with
  | [] => !ip.isEmpty
  | '.' :: fr => (!ip.isEmpty || !fr.isEmpty) && fr.all Char.isDigit
  | _ => false

/-- Whether `decimal.Decimal(s)` accepts the string `s`: an optionally signed
mantissa with optional exponent, or one of the special values. -/
def pyDecimalOk (s : String) : Bool :=
  let t := (stripSign (trimWs s.data)).snd
  let low := pyLower (String.mk t)
  if low = "infinity" ∨ low = "inf" ∨ low = "nan" ∨ low = "snan" then true
  else
    let pr := splitExp t
    match pr.snd with
    | Option.none => decMantOk pr.fst
    | some ex => decMantOk pr.fst && decDigits ((stripSign ex).snd)

/-- `decimal.Decimal(v)`.  On a malformed string it raises
`decimal.InvalidOperation`; `int` and `bool` inputs convert; `None` raises
`TypeError` (never reached: `validate_numeric` tests for `None` first). -/
def pyDecimal : Value → Except PyExc Unit
  | Value.str s =>
    if pyDecimalOk s then Except.ok () else Except.error PyExc.invalidOperation
  | Value.int _ => Except.ok ()
  | Value.bool _ => Except.ok ()
  | Value.none => Except.error PyExc.typeError

/-- First-character alphabetic test `s[0].isalpha()` for a string already
known to be non-empty.  (Python `isalpha` is Unicode-aware; the corpus fields
tested are ASCII.) -/
def firstAlpha (s : String) : Bool :=
  match s.data with
  | [] => false
  | c :: _ => c.isAlpha

/-! ### Record decoders (`dictify`) -/

namespace OccurencesHandler

/-- The 75 positional field names of an Occurrence row, in source order. -/
def occKeys : List String :=
  ["occurrence_id", "guid", "record_guid", "modified_on", "imaged",
   "information_withheld", "basis_of_record", "herbarium", "collection",
   "dataset", "accession", "catalog", "barcode", "other_numbers", "family",
   "taxon_name", "accepted", "scientific_name", "notho_genus", "genus",
   "notho_species", "specific_epithet", "specific_authors",
   "infraspecific_rank", "notho_infraspecies", "infraspecific_epithet",
   "infraspecific_authors", "hybrid_symbol", "notho_genus_2", "genus_2",
   "notho_species_2", "specific_epithet_2", "specific_authors_2",
   "infraspecific_rank_2", "notho_infraspecies_2", "infraspecific_epithet_2",
   "infraspecific_authors_2", "cultivar", "name_qualifier",
   "qualifier_position", "is_type", "type_designation", "site_number",
   "collector", "collector_number", "other_collectors", "day_collected",
   "month_collected", "year_collected", "verbatim_collection_date",
   "day_of_year", "country", "state_province", "county", "locality",
   "site_description", "verbatim_elevation", "minimum_elevation_in_meters",
   "maximum_elevation_in_meters", "verbatim_depth", "minimum_depth_in_meters",
   "maximum_depth_in_meters", "verbatim_coordinates", "decimal_latitude",
   "decimal_longitude", "valid_lat_lng", "geodetic_datum",
   "coordinate_uncertainty_in_meters", "georeferenced_by",
   "georeference_sources", "georeference_remarks", "specimen_notes",
   "phenology", "cultivated", "origin"]

/-- The fields coerced to booleans by `OccurencesHandler.dictify`. -/
def occBoolFields : List String :=
  ["imaged", "accepted", "is_type", "valid_lat_lng", "cultivated"]

/-- `OccurencesHandler.dictify`: checks for exactly 75 columns (raising
`ValueError` otherwise), maps the columns positionally onto `occKeys`, then
applies boolean coercion followed by blank-to-null on all keys. -/
def dictify (row : List String) : Except PyExc Entity :=
  if row.length ≠ 75 then Except.error PyExc.valueError
  else
    let d0 := occKeys.zip (row.map Value.str)
    let d1 := TransformHelper.transform_invalid_booleans d0 occBoolFields ["y", "t"]
    Except.ok (TransformHelper.transform_empty_to_none d1 (d1.map Prod.fst))

end OccurencesHandler

namespace TypesHandler

/-- The 18 positional field names a Type row consumes after `occurrence_id`,
in source order. -/
def typesKeysTail : List String :=
  ["sequence_number", "family", "scientific_name", "notho_genus", "genus",
   "notho_species", "specific_epithet", "specific_authors",
   "infraspecific_rank", "notho_infraspecies", "infraspecific_epithet",
   "infraspecific_authors", "cultivar", "type_designation",
   "holotype_location", "year_published", "publication", "notes"]

/-- `TypesHandler.dictify`: no column-count check.  The first column is
parsed with `int(...)` (raising `ValueError` on a non-integer), the next 18
pops raise `IndexError` when the row runs out, extra columns are ignored,
and blank-to-null is applied to all keys.  The integer key is the one decoder
that does not keep `occurrence_id` as a string. -/
def dictify (row : List String) : Except PyExc Entity :=
  match row with
  | [] => Except.error PyExc.indexError
  | a :: rest =>
    match pyInt a with
    | Except.error ex => Except.error ex
    | Except.ok n =>
      if rest.length < 18 then Except.error PyExc.indexError
      else
        let d0 := ("occurrence_id", Value.int n) ::
          typesKeysTail.zip ((rest.take 18).map Value.str)
        Except.ok (TransformHelper.transform_empty_to_none d0 (d0.map Prod.fst))

end TypesHandler

namespace MediaHandler

/-- The 13 positional field names of a Media row, in source order. -/
def mediaKeys : List String :=
  ["occurrence_id", "modified_on", "media_guid", "file_name", "file_format",
   "viewer_format", "thumbnail_url", "file_url", "viewer_url", "date_created",
   "created_by", "publisher", "license"]

/-- `MediaHandler.dictify`: no column-count check.  Thirteen pops raise
`IndexError` when the row has fewer than 13 columns, extra columns are
ignored, and blank-to-null is applied to all keys. -/
def dictify (row : List String) : Except PyExc Entity :=
  if row.length < 13 then Except.error PyExc.indexError
  else
    let d0 := mediaKeys.zip ((row.take 13).map Value.str)
    Except.ok (TransformHelper.transform_empty_to_none d0 (d0.map Prod.fst))

end MediaHandler

namespace AnnotationsHandler

/-- `None` if the raw day/month token is the literal `"ICBN"`, otherwise the
token itself (lines 380-393 of the source). -/
def icbnToNone (s : String) : Value :=
  if s = "ICBN" then Value.none else Value.str s

/-- The stored `month_annotated` value: `"ICBN"` becomes `None`; a non-empty
token with an alphabetic first character becomes `None` (it is consumed as
`annotated_by` instead); anything else is kept. -/
def monthVal (s : String) : Value :=
  if s = "ICBN" then Value.none
  else if s ≠ "" ∧ firstAlpha s then Value.none
  else Value.str s

/-- The final `annotated_by` value after the source's overwrites: when the
month token is `"ICBN"` the following raw value (the would-be
`year_annotated`) is consumed; when the month token is non-empty and
alphabetic it is consumed; otherwise the original `annotated_by` column
stands. -/
def annotatedByVal (base month yearSlot : String) : Value :=
  if month = "ICBN" then Value.str yearSlot
  else if month ≠ "" ∧ firstAlpha month then Value.str month
  else Value.str base

/-- The raw field mapping of the normal branch (a sequence number is present
in column 2): columns map positionally, with the day/month/year/annotated_by
disambiguation of source lines 377-404 folded into the stored values. -/
def fieldsNormal (g : Nat → String) : Entity :=
  [("occurrence_id", Value.str (g 0)),
   ("current_annotation", Value.str (g 1)),
   ("sequence_number", Value.str (g 2)),
   ("family", Value.str (g 3)),
   ("scientific_name", Value.str (g 4)),
   ("notho_genus", Value.str (g 5)),
   ("genus", Value.str (g 6)),
   ("notho_species", Value.str (g 7)),
   ("specific_epithet", Value.str (g 8)),
   ("specific_authors", Value.str (g 9)),
   ("infraspecific_rank", Value.str (g 10)),
   ("notho_infraspecies", Value.str (g 11)),
   ("infraspecific_epithet", Value.str (g 12)),
   ("infraspecific_authors", Value.str (g 13)),
   ("hybrid_symbol", Value.str (g 14)),
   ("notho_genus_2", Value.str (g 15)),
   ("genus_2", Value.str (g 16)),
   ("notho_species_2", Value.str (g 17)),
   ("specific_epithet_2", Value.str (g 18)),
   ("specific_authors_2", Value.str (g 19)),
   ("infraspecific_rank_2", Value.str (g 20)),
   ("notho_infraspecies_2", Value.str (g 21)),
   ("infraspecific_epithet_2", Value.str (g 22)),
   ("infraspecific_authors_2", Value.str (g 23)),
   ("cultivar", Value.str (g 24)),
   ("name_qualifier", Value.str (g 25)),
   ("qualifier_position", Value.str (g 26)),
   ("nomenclatural_code", Value.str (g 27)),
   ("annotated_by", annotatedByVal (g 28) (g 30) (g 31)),
   ("day_annotated", icbnToNone (g 29)),
   ("month_annotated", monthVal (g 30)),
   ("year_annotated", if g 30 = "ICBN" then Value.none else Value.str (g 31)),
   ("annotation_references", Value.str (g 32)),
   ("annotation_remarks", Value.str (g 33))]

/-- The raw field mapping of the skipped-sequence-number branch (column 2
starts with a letter and is consumed as `family`): every later field shifts
one column earlier and the final raw column is never popped. -/
def fieldsAlpha (g : Nat → String) : Entity :=
  [("occurrence_id", Value.str (g 0)),
   ("current_annotation", Value.str (g 1)),
   ("sequence_number", Value.none),
   ("family", Value.str (g 2)),
   ("scientific_name", Value.str (g 3)),
   ("notho_genus", Value.str (g 4)),
   ("genus", Value.str (g 5)),
   ("notho_species", Value.str (g 6)),
   ("specific_epithet", Value.str (g 7)),
   ("specific_authors", Value.str (g 8)),
   ("infraspecific_rank", Value.str (g 9)),
   ("notho_infraspecies", Value.str (g 10)),
   ("infraspecific_epithet", Value.str (g 11)),
   ("infraspecific_authors", Value.str (g 12)),
   ("hybrid_symbol", Value.str (g 13)),
   ("notho_genus_2", Value.str (g 14)),
   ("genus_2", Value.str (g 15)),
   ("notho_species_2", Value.str (g 16)),
   ("specific_epithet_2", Value.str (g 17)),
   ("specific_authors_2", Value.str (g 18)),
   ("infraspecific_rank_2", Value.str (g 19)),
   ("notho_infraspecies_2", Value.str (g 20)),
   ("infraspecific_epithet_2", Value.str (g 21)),
   ("infraspecific_authors_2", Value.str (g 22)),
   ("cultivar", Value.str (g 23)),
   ("name_qualifier", Value.str (g 24)),
   ("qualifier_position", Value.str (g 25)),
   ("nomenclatural_code", Value.str (g 26)),
   ("annotated_by", annotatedByVal (g 27) (g 29) (g 30)),
   ("day_annotated", icbnToNone (g 28)),
   ("month_annotated", monthVal (g 29)),
   ("year_annotated", if g 29 = "ICBN" then Value.none else Value.str (g 30)),
   ("annotation_references", Value.str (g 31)),
   ("annotation_remarks", Value.str (g 32))]

/-- The post-decode transforms of source lines 406-408, in order: boolean
coercion on `current_annotation`, blank-to-null on all keys, then the `"?"`
sentinel on `sequence_number`.  (The debug pretty-print at lines 410-412 does
not modify the mapping.) -/
def post (d : Entity) : Entity :=
  let d1 := TransformHelper.transform_invalid_booleans d ["current_annotation"] ["y", "t"]
  let d2 := TransformHelper.transform_empty_to_none d1 (d1.map Prod.fst)
  TransformHelper.transform_question_mark_to_none d2 ["sequence_number"]

/-- `AnnotationsHandler.dictify`: checks for exactly 34 columns (raising
`ValueError` otherwise).  Indexing `row[2][0]` raises `IndexError` on an
empty sequence-number column; otherwise the branch on its first character
selects the normal or skipped-sequence-number layout, and the post-decode
transforms are applied. -/
def dictify (row : List String) : Except PyExc Entity :=
  if row.length ≠ 34 then Except.error PyExc.valueError
  else
    let g := fun i => row.getD i ""
    if g 2 = "" then Except.error PyExc.indexError
    else if firstAlpha (g 2) then Except.ok (post (fieldsAlpha g))
    else Except.ok (post (fieldsNormal g))

end AnnotationsHandler

/-! ### BaseHandler: batching, filtering, sink interaction -/

/-- The sink-side errors `execute` (the bulk insert) can raise. -/
inductive SinkErr where
  | constraintViolation
  | connectionFault
deriving DecidableEq

/-- Observable state of the relational sink collaborator: the batches handed
to `execute` (in order), the errors logged by `batch_insert`, and the
rollbacks issued. -/
structure SinkState where
  attempted : List (List Entity)
  errorsLogged : List SinkErr
  rollbacks : Nat
deriving DecidableEq

/-- The sink before any batch is handed over. -/
def initSink : SinkState := ⟨[], [], 0⟩

/-- `BaseHandler.batch_insert` (source lines 52-62): runs `execute` on the
batch inside a scoped cursor; any raised `Exception` is caught, the error is
logged and the connection rolled back.  The function is total — no exception
escapes it. -/
def batch_insert (execute : List Entity → Except SinkErr Unit)
    (st : SinkState) (ents : List Entity) : SinkState :=
  match execute ents with
  | Except.ok _ =>
    { st with attempted := st.attempted ++ [ents] }
  | Except.error e =>
    { attempted := st.attempted ++ [ents],
      errorsLogged := st.errorsLogged ++ [e],
      rollbacks := st.rollbacks + 1 }

/-- The sequence of `batch_insert` calls a run performs, folded over the
batches the `handle` loop flushes. -/
def runBatches (execute : List Entity → Except SinkErr Unit)
    (st : SinkState) (batches : List (List Entity)) : SinkState :=
  batches.foldl (batch_insert execute) st

/-- The row loop of `BaseHandler.handle` (source lines 79-98), parameterised
by the decoder.  Each raw row is decoded (a decode exception aborts the run),
appended to the in-flight batch when `skip_fkey_validation` is set or its
`occurrence_id` is in the valid-key set, and the batch is flushed whenever it
reaches `batch_size`; a non-empty final batch is flushed after the loop.  The
result is the list of batches handed to `batch_insert`.  (`num_rows`
accounting and the per-row `commit` of the `no_commit=False` mode have no
effect on the batches and are not modelled.) -/
def handleLoop {α : Type} (dictify : α → Except PyExc Entity) (skip : Bool)
    (validKeys : List Value) (batchSize : Nat) (acc : List Entity) :
    List α → Except PyExc (List (List Entity))
  | [] => Except.ok (if 0 < acc.length then [acc] else [])
  | raw :: raws =>
    match dictify raw with
    | Except.error e => Except.error e
    | Except.ok d =>
      let acc2 :=
        if !skip then
          (if vmem (dget d "occurrence_id") validKeys then acc ++ [d] else acc)
        else acc ++ [d]
      if batchSize ≤ acc2.length then
        match handleLoop dictify skip validKeys batchSize [] raws with
        | Except.error e => Except.error e
        | Except.ok rest => Except.ok (acc2 :: rest)
      else handleLoop dictify skip validKeys batchSize acc2 raws

/-- The trivial decoder: used to state properties of the filter/batch logic
over already decoded rows (the loop is generic in the decoder). -/
def pureDecode : Entity → Except PyExc Entity := fun d => Except.ok d

/-- The pure batching skeleton of the loop on an already filtered row list:
rows accumulate one at a time and each batch is flushed exactly when it
reaches `batchSize`; a trailing non-empty batch is flushed at the end. -/
def batchify (batchSize : Nat) (acc : List Entity) :
    List Entity → List (List Entity)
  | [] => if 0 < acc.length then [acc] else []
  | d :: ds =>
    let acc2 := acc ++ [d]
    if batchSize ≤ acc2.length then acc2 :: batchify batchSize [] ds
    else batchify batchSize acc2 ds

/-- The rows `handle` keeps: all of them under `skip_fkey_validation`,
otherwise those whose `occurrence_id` is a member of the valid-key set. -/
def appFilter (skip : Bool) (validKeys : List Value) (rows : List Entity) :
    List Entity :=
  if skip then rows
  else rows.filter (fun d => vmem (dget d "occurrence_id") validKeys)

/-! ### Validator -/

/-- A single validation finding: (message, offending value), as built by the
`validate_*` routines. -/
def VErr : Type := String × Value

instance : DecidableEq VErr := by unfold VErr; infer_instance

/-- Validator state: the error accumulator and the named value sets.  The
source keys errors by table then entity id, each holding an ordered list of
findings; we keep the same information as the flat ordered list of
(table, entity id, message, offending value) records.  `sets` maps a set name
(`valid_occurrence_ids` or `table:field`) to the set of seen values. -/
structure VState where
  errors : List (String × Value × String × Value)
  sets : List (String × List Value)
deriving DecidableEq

/-- `Validator.__init__`: no errors, an empty valid-key set. -/
def initVState : VState := ⟨[], [("valid_occurrence_ids", [])]⟩

/-- `_add_error_for_entity`: append a finding for (table, entity id). -/
def addError (st : VState) (table : String) (entityId : Value) (err : VErr) :
    VState :=
  { st with errors := st.errors ++ [(table, entityId, err.fst, err.snd)] }

/-- Read a named set (empty when not yet created). -/
def getSet (st : VState) (key : String) : List Value :=
  (List.lookup key st.sets).getD []

/-- Write a named set, replacing an existing binding or creating one. -/
def setsPut : List (String × List Value) → String → List Value →
    List (String × List Value)
  | [], key, v => [(key, v)]
  | kv :: rest, key, v =>
    if kv.fst = key then (key, v) :: rest else kv :: setsPut rest key v

/-- Write a named set in the validator state. -/
def putSet (st : VState) (key : String) (v : List Value) : VState :=
  { st with sets := setsPut st.sets key v }

/-- Python `set.add`: a no-op when an equal element is present. -/
def setAdd (s : List Value) (v : Value) : List Value :=
  if vmem v s then s else s ++ [v]

namespace Validator

/-- `validate_fkey` (source lines 549-557): reports when the record's
`occurrence_id` is not in the valid-occurrence-key set. -/
def validate_fkey (st : VState) (table : String) (e : Entity) :
    VState × Option VErr :=
  let vs := getSet st "valid_occurrence_ids"
  if vmem (dget e "occurrence_id") vs then (st, Option.none)
  else
    let err : VErr := ("Invalid foreign key", dget e "occurrence_id")
    (addError st table (dget e "occurrence_id") err, some err)

/-- `validate_unique` (source lines 559-575): reports when the field's value
is non-null and already in the `table:field` seen set; on the duplicate path
it returns early without re-adding, otherwise it records the value (nulls
included) as seen. -/
def validate_unique (st : VState) (table key : String) (e : Entity) :
    VState × Option VErr :=
  let setKey := table ++ ":" ++ key
  let seen := getSet st setKey
  if dget e key ≠ Value.none ∧ vmem (dget e key) seen then
    let err : VErr := ("Duplicate " ++ key ++ " found", dget e key)
    (addError st table (dget e "occurrence_id") err, some err)
  else
    (putSet st setKey (setAdd seen (dget e key)), Option.none)

/-- `validate_length` (source lines 577-584): reports when a non-null value
exceeds the maximum length.  (A non-null non-string value would raise
`TypeError` at `len`; no such value reaches a length check in the source.) -/
def validate_length (st : VState) (table key : String) (e : Entity)
    (maxLen : Nat) : VState × Option VErr :=
  match dget e key with
  | Value.str s =>
    if maxLen < s.length then
      let err : VErr :=
        ("Value exceeds maximum length (" ++ toString maxLen ++
          " chars) for key " ++ key, Value.str s)
      (addError st table (dget e "occurrence_id") err, some err)
    else (st, Option.none)
  | _ => (st, Option.none)

/-- `int(v)` on a stored value, as used by `validate_integer`. -/
def pyIntVal : Value → Except PyExc Int
  | Value.str s => pyInt s
  | Value.int n => Except.ok n
  | Value.bool b => Except.ok (if b then 1 else 0)
  | Value.none => Except.error PyExc.typeError

/-- `validate_integer` (source lines 586-599): `int(...)` failures raise
`ValueError`, which the `except ValueError` clause catches, records and
returns; any other exception would propagate (the `Except.error` result),
though `int` raises only `ValueError` on the non-null values reaching it. -/
def validate_integer (st : VState) (table key : String) (e : Entity) :
    VState × Except PyExc (Option VErr) :=
  if dget e key = Value.none then (st, Except.ok Option.none)
  else
    match pyIntVal (dget e key) with
    | Except.ok _ => (st, Except.ok Option.none)
    | Except.error ex =>
      if ex = PyExc.valueError then
        let err : VErr :=
          ("Expected integer value for key " ++ key, dget e key)
        (addError st table (dget e "occurrence_id") err, Except.ok (some err))
      else (st, Except.error ex)

/-- `validate_numeric` (source lines 601-611): a `None` value passes; then
`Decimal(...)` is tried under `except ValueError`.  A malformed string makes
`Decimal` raise `decimal.InvalidOperation`, which is not a `ValueError`: the
clause does not match and the exception propagates (second component
`some invalidOperation`) with no error recorded.  On the (unreachable for
string input) caught path the source records the finding but falls off the
end, returning `None`. -/
def validate_numeric (st : VState) (table key : String) (e : Entity) :
    VState × Option PyExc :=
  if dget e key = Value.none then (st, Option.none)
  else
    match pyDecimal (dget e key) with
    | Except.ok _ => (st, Option.none)
    | Except.error ex =>
      if ex = PyExc.valueError then
        let err : VErr :=
          ("Expected decimal value for key " ++ key, dget e key)
        (addError st table (dget e "occurrence_id") err, Option.none)
      else (st, some ex)

/-- The 55 varchar(255) fields checked by `validate_occurrence`. -/
def occVarcharFields : List String :=
  ["guid", "basis_of_record", "herbarium", "collection", "dataset",
   "accession", "catalog", "barcode", "other_numbers", "family",
   "taxon_name", "scientific_name", "notho_genus", "genus", "notho_species",
   "specific_epithet", "specific_authors", "infraspecific_rank",
   "notho_infraspecies", "infraspecific_epithet", "infraspecific_authors",
   "hybrid_symbol", "notho_genus_2", "genus_2", "notho_species_2",
   "specific_epithet_2", "specific_authors_2", "infraspecific_rank_2",
   "notho_infraspecies_2", "infraspecific_epithet_2",
   "infraspecific_authors_2", "cultivar", "name_qualifier",
   "qualifier_position", "type_designation", "site_number", "collector",
   "collector_number", "other_collectors", "day_collected",
   "month_collected", "year_collected", "verbatim_collection_date",
   "day_of_year", "country", "state_province", "county",
   "verbatim_elevation", "verbatim_depth", "verbatim_coordinates",
   "geodetic_datum", "georeferenced_by", "georeference_sources",
   "phenology", "origin"]

/-- The numeric fields checked by `validate_occurrence`. -/
def occNumericFields : List String :=
  ["minimum_elevation_in_meters", "maximum_elevation_in_meters",
   "minimum_depth_in_meters", "maximum_depth_in_meters",
   "decimal_latitude", "decimal_longitude",
   "coordinate_uncertainty_in_meters"]

/-- `validate_occurrence` (source lines 613-689): the `guid` uniqueness check
runs first and the occurrence's key is added to the valid-key set exactly
when that check returned no error; then the varchar length checks and the
numeric checks run.  The second component carries an exception escaping a
numeric check (which in Python would abort the loop mid-way; the remaining
state mutations of earlier fields persist, as they do here). -/
def validate_occurrence (st : VState) (e : Entity) : VState × Option PyExc :=
  let uniq := validate_unique st "corpus_occurrences" "guid" e
  let st2 :=
    if uniq.snd = Option.none then
      putSet uniq.fst "valid_occurrence_ids"
        (setAdd (getSet uniq.fst "valid_occurrence_ids")
          (dget e "occurrence_id"))
    else uniq.fst
  let st3 := occVarcharFields.foldl
    (fun s f => (validate_length s "corpus_occurrences" f e 255).fst) st2
  occNumericFields.foldl
    (fun acc f =>
      match acc.snd with
      | some ex => (acc.fst, some ex)
      | Option.none => validate_numeric acc.fst "corpus_occurrences" f e)
    (st3, Option.none)

end Validator

/-! ### Basic lemmas about the value model and dictionary transforms -/

/-- Whether an `Except` result is a normal return (no exception raised). -/
def exceptOk {ε α : Type} : Except ε α → Bool
  | Except.ok _ => true
  | Except.error _ => false

theorem pyEq_refl (v : Value) : pyEq v v = true := by
  cases v <;> simp [pyEq]

theorem vmem_append (v : Value) (s t : List Value) :
    vmem v (s ++ t) = (vmem v s || vmem v t) := by
  simp [vmem, List.any_append]

theorem vmem_setAdd_self (s : List Value) (v : Value) :
    vmem v (setAdd s v) = true := by
  unfold setAdd
  by_cases h : vmem v s = true
  · rw [if_pos h]; exact h
  · rw [if_neg h, vmem_append]
    simp [vmem, pyEq_refl]

theorem dget_nil (k : String) : dget [] k = Value.none := rfl

theorem dget_cons (k2 : String) (v : Value) (rest : Entity) (k : String) :
    dget ((k2, v) :: rest) k = if k = k2 then v else dget rest k := by
  by_cases hk : k = k2
  · subst hk
    simp [dget, List.lookup]
  · have hb : (k == k2) = false := beq_eq_false_iff_ne.mpr hk
    simp [dget, List.lookup, hb, hk]

theorem dget_empty_to_none (d : Entity) (fields : List String) (k : String) :
    dget (TransformHelper.transform_empty_to_none d fields) k =
      if k ∈ fields ∧ dget d k = Value.str "" then Value.none else dget d k := by
  induction d with
  | nil => simp [TransformHelper.transform_empty_to_none, dget_nil]
  | cons kv rest ih =>
    obtain ⟨k2, v⟩ := kv
    simp only [TransformHelper.transform_empty_to_none, List.map_cons] at ih ⊢
    by_cases hc : k2 ∈ fields ∧ v = Value.str ""
    · rw [if_pos hc]
      simp only [dget_cons]
      by_cases hk : k = k2
      · subst hk
        simp [hc.1, hc.2]
      · simp [hk, ih]
    · rw [if_neg hc]
      simp only [dget_cons]
      by_cases hk : k = k2
      · subst hk
        rw [if_pos rfl, if_pos rfl, if_neg hc]
      · simp [hk, ih]

theorem dget_question_mark (d : Entity) (fields : List String) (k : String) :
    dget (TransformHelper.transform_question_mark_to_none d fields) k =
      if k ∈ fields ∧ dget d k = Value.str "?" then Value.none else dget d k := by
  induction d with
  | nil => simp [TransformHelper.transform_question_mark_to_none, dget_nil]
  | cons kv rest ih =>
    obtain ⟨k2, v⟩ := kv
    simp only [TransformHelper.transform_question_mark_to_none, List.map_cons] at ih ⊢
    by_cases hc : k2 ∈ fields ∧ v = Value.str "?"
    · rw [if_pos hc]
      simp only [dget_cons]
      by_cases hk : k = k2
      · subst hk
        simp [hc.1, hc.2]
      · simp [hk, ih]
    · rw [if_neg hc]
      simp only [dget_cons]
      by_cases hk : k = k2
      · subst hk
        rw [if_pos rfl, if_pos rfl, if_neg hc]
      · simp [hk, ih]

/-- The boolean coercion applied to a single stored value. -/
def boolCoerce (trueValues : List String) : Value → Value
  | Value.str s => Value.bool (trueValues.contains (pyLower s))
  | v => v

theorem dget_invalid_booleans (d : Entity) (fields : List String)
    (tv : List String) (k : String) :
    dget (TransformHelper.transform_invalid_booleans d fields tv) k =
      if k ∈ fields then boolCoerce tv (dget d k) else dget d k := by
  induction d with
  | nil =>
    simp only [TransformHelper.transform_invalid_booleans, List.map_nil, dget_nil]
    by_cases hc : k ∈ fields
    · rw [if_pos hc]; rfl
    · rw [if_neg hc]
  | cons kv rest ih =>
    obtain ⟨k2, v⟩ := kv
    simp only [TransformHelper.transform_invalid_booleans, List.map_cons] at ih ⊢
    by_cases hc : k2 ∈ fields
    · rw [if_pos hc]
      by_cases hk : k = k2
      · subst hk
        cases v <;> simp [dget_cons, hc, boolCoerce]
      · cases v <;>
          · simp only [dget_cons, if_neg hk]
            exact ih
    · rw [if_neg hc]
      by_cases hk : k = k2
      · subst hk
        simp [dget_cons, hc]
      · simp only [dget_cons, if_neg hk]
        exact ih

theorem keys_invalid_booleans (d : Entity) (fields : List String)
    (tv : List String) :
    (TransformHelper.transform_invalid_booleans d fields tv).map Prod.fst =
      d.map Prod.fst := by
  induction d with
  | nil => rfl
  | cons kv rest ih =>
    obtain ⟨k2, v⟩ := kv
    simp only [TransformHelper.transform_invalid_booleans, List.map_cons] at ih ⊢
    by_cases hc : k2 ∈ fields
    · rw [if_pos hc]
      cases v <;> simpa using ih
    · rw [if_neg hc]
      simpa using ih

/-! ### Validator state lemmas -/

theorem getSet_putSet_same (st : VState) (k : String) (v : List Value) :
    getSet (putSet st k v) k = v := by
  unfold getSet putSet
  simp only
  induction st.sets with
  | nil => simp [setsPut, List.lookup]
  | cons kv rest ih =>
    obtain ⟨k2, v2⟩ := kv
    by_cases hk : k2 = k
    · simp [setsPut, hk, List.lookup]
    · have hb : (k == k2) = false := beq_eq_false_iff_ne.mpr (Ne.symm hk)
      simp [setsPut, hk, List.lookup, hb, ih]

theorem getSet_putSet_other (st : VState) (k k2 : String) (v : List Value)
    (h : k2 ≠ k) : getSet (putSet st k v) k2 = getSet st k2 := by
  unfold getSet putSet
  simp only
  induction st.sets with
  | nil =>
    have hb : (k2 == k) = false := beq_eq_false_iff_ne.mpr h
    simp [setsPut, List.lookup, hb]
  | cons kv rest ih =>
    obtain ⟨k3, v3⟩ := kv
    by_cases hk : k3 = k
    · subst hk
      have hb : (k2 == k3) = false := beq_eq_false_iff_ne.mpr h
      simp [setsPut, List.lookup, hb]
    · by_cases hk2 : k2 = k3
      · subst hk2
        simp [setsPut, hk, List.lookup]
      · have hb : (k2 == k3) = false := beq_eq_false_iff_ne.mpr hk2
        simp [setsPut, hk, List.lookup, hb, ih]

theorem errors_putSet (st : VState) (k : String) (v : List Value) :
    (putSet st k v).errors = st.errors := rfl

theorem sets_addError (st : VState) (t : String) (i : Value) (err : VErr) :
    (addError st t i err).sets = st.sets := rfl

theorem sets_validate_length (st : VState) (t k : String) (e : Entity) (n : Nat) :
    (Validator.validate_length st t k e n).fst.sets = st.sets := by
  unfold Validator.validate_length
  cases dget e k <;> simp <;> split <;> rfl

theorem sets_validate_numeric (st : VState) (t k : String) (e : Entity) :
    (Validator.validate_numeric st t k e).fst.sets = st.sets := by
  unfold Validator.validate_numeric
  split
  · rfl
  · split
    · rfl
    · split <;> rfl

theorem errors_mono_validate_length (st : VState) (t k : String) (e : Entity)
    (n : Nat) (x : String × Value × String × Value) (hx : x ∈ st.errors) :
    x ∈ (Validator.validate_length st t k e n).fst.errors := by
  unfold Validator.validate_length
  cases dget e k <;> simp_all <;> split <;> simp_all [addError]

theorem errors_mono_validate_numeric (st : VState) (t k : String) (e : Entity)
    (x : String × Value × String × Value) (hx : x ∈ st.errors) :
    x ∈ (Validator.validate_numeric st t k e).fst.errors := by
  unfold Validator.validate_numeric
  split
  · exact hx
  · split
    · exact hx
    · split
      · simp_all [addError]
      · exact hx

theorem sets_length_fold (fields : List String) (st : VState) (t : String)
    (e : Entity) :
    (fields.foldl
      (fun s f => (Validator.validate_length s t f e 255).fst) st).sets =
      st.sets := by
  induction fields generalizing st with
  | nil => rfl
  | cons f fs ih =>
    simp only [List.foldl_cons]
    rw [ih, sets_validate_length]

theorem errors_mono_length_fold (fields : List String) (st : VState)
    (t : String) (e : Entity) (x : String × Value × String × Value)
    (hx : x ∈ st.errors) :
    x ∈ (fields.foldl
      (fun s f => (Validator.validate_length s t f e 255).fst) st).errors := by
  induction fields generalizing st with
  | nil => exact hx
  | cons f fs ih =>
    simp only [List.foldl_cons]
    exact ih _ (errors_mono_validate_length _ _ _ _ _ _ hx)

theorem sets_numeric_fold (fields : List String) (acc : VState × Option PyExc)
    (t : String) (e : Entity) :
    (fields.foldl
      (fun acc f =>
        match acc.snd with
        | some ex => (acc.fst, some ex)
        | Option.none => Validator.validate_numeric acc.fst t f e)
      acc).fst.sets = acc.fst.sets := by
  induction fields generalizing acc with
  | nil => rfl
  | cons f fs ih =>
    simp only [List.foldl_cons]
    cases hsnd : acc.snd
    · rw [ih, sets_validate_numeric]
    · rw [ih]

theorem errors_mono_numeric_fold (fields : List String)
    (acc : VState × Option PyExc) (t : String) (e : Entity)
    (x : String × Value × String × Value) (hx : x ∈ acc.fst.errors) :
    x ∈ (fields.foldl
      (fun acc f =>
        match acc.snd with
        | some ex => (acc.fst, some ex)
        | Option.none => Validator.validate_numeric acc.fst t f e)
      acc).fst.errors := by
  induction fields generalizing acc with
  | nil => exact hx
  | cons f fs ih =>
    simp only [List.foldl_cons]
    cases hsnd : acc.snd
    · exact ih _ (by simp [hsnd]; exact errors_mono_validate_numeric _ _ _ _ _ hx)
    · exact ih _ (by simp [hsnd]; exact hx)

/-! ### Batching lemmas for `handle` -/

theorem appFilter_nil (skip : Bool) (ks : List Value) :
    appFilter skip ks [] = [] := by
  cases skip <;> simp [appFilter]

theorem appFilter_cons_true (ks : List Value) (r : Entity) (rs : List Entity) :
    appFilter true ks (r :: rs) = r :: appFilter true ks rs := by
  simp [appFilter]

theorem appFilter_cons_keep (ks : List Value) (r : Entity) (rs : List Entity)
    (h : vmem (dget r "occurrence_id") ks = true) :
    appFilter false ks (r :: rs) = r :: appFilter false ks rs := by
  simp [appFilter, List.filter_cons, h]

theorem appFilter_cons_drop (ks : List Value) (r : Entity) (rs : List Entity)
    (h : vmem (dget r "occurrence_id") ks = false) :
    appFilter false ks (r :: rs) = appFilter false ks rs := by
  simp [appFilter, List.filter_cons, h]

theorem handleLoop_eq_batchify (skip : Bool) (ks : List Value) (b : Nat)
    (hb : 0 < b) :
    ∀ (rows : List Entity) (acc : List Entity), acc.length < b →
      handleLoop pureDecode skip ks b acc rows =
        Except.ok (batchify b acc (appFilter skip ks rows)) := by
  intro rows
  induction rows with
  | nil =>
    intro acc hacc
    rw [appFilter_nil]
    rfl
  | cons r rs ih =>
    intro acc hacc
    cases skip
    · -- skip_fkey_validation = False: filter on the valid-key set
      cases hm : vmem (dget r "occurrence_id") ks
      · -- row dropped
        rw [appFilter_cons_drop ks r rs hm]
        have hnoflush : ¬ b ≤ acc.length := by omega
        calc handleLoop pureDecode false ks b acc (r :: rs)
            = handleLoop pureDecode false ks b acc rs := by
              simp [handleLoop, pureDecode, hm, hnoflush]
          _ = Except.ok (batchify b acc (appFilter false ks rs)) := ih acc hacc
      · -- row kept
        rw [appFilter_cons_keep ks r rs hm]
        by_cases hflush : b ≤ acc.length + 1
        · calc handleLoop pureDecode false ks b acc (r :: rs)
              = (match handleLoop pureDecode false ks b [] rs with
                | Except.error e => Except.error e
                | Except.ok rest => Except.ok ((acc ++ [r]) :: rest)) := by
                simp [handleLoop, pureDecode, hm, hflush]
            _ = Except.ok ((acc ++ [r]) :: batchify b [] (appFilter false ks rs)) := by
                rw [ih [] (by simpa using hb)]
            _ = Except.ok (batchify b acc (r :: appFilter false ks rs)) := by
                simp [batchify, hflush]
        · calc handleLoop pureDecode false ks b acc (r :: rs)
              = handleLoop pureDecode false ks b (acc ++ [r]) rs := by
                simp [handleLoop, pureDecode, hm, hflush]
            _ = Except.ok (batchify b (acc ++ [r]) (appFilter false ks rs)) :=
                ih (acc ++ [r]) (by simp; omega)
            _ = Except.ok (batchify b acc (r :: appFilter false ks rs)) := by
                simp [batchify, hflush]
    · -- skip_fkey_validation = True: every decoded row is kept
      rw [appFilter_cons_true ks r rs]
      by_cases hflush : b ≤ acc.length + 1
      · calc handleLoop pureDecode true ks b acc (r :: rs)
            = (match handleLoop pureDecode true ks b [] rs with
              | Except.error e => Except.error e
              | Except.ok rest => Except.ok ((acc ++ [r]) :: rest)) := by
              simp [handleLoop, pureDecode, hflush]
          _ = Except.ok ((acc ++ [r]) :: batchify b [] (appFilter true ks rs)) := by
              rw [ih [] (by simpa using hb)]
          _ = Except.ok (batchify b acc (r :: appFilter true ks rs)) := by
              simp [batchify, hflush]
      · calc handleLoop pureDecode true ks b acc (r :: rs)
            = handleLoop pureDecode true ks b (acc ++ [r]) rs := by
              simp [handleLoop, pureDecode, hflush]
          _ = Except.ok (batchify b (acc ++ [r]) (appFilter true ks rs)) :=
              ih (acc ++ [r]) (by simp; omega)
          _ = Except.ok (batchify b acc (r :: appFilter true ks rs)) := by
              simp [batchify, hflush]

theorem batchify_flatten (b : Nat) :
    ∀ (l : List Entity) (acc : List Entity),
      (batchify b acc l).flatten = acc ++ l := by
  intro l
  induction l with
  | nil =>
    intro acc
    by_cases h : 0 < acc.length
    · simp [batchify, h]
    · have : acc = [] := by
        cases acc
        · rfl
        · simp at h
      simp [batchify, h, this]
  | cons d ds ih =>
    intro acc
    by_cases hflush : b ≤ acc.length + 1
    · simp [batchify, hflush, ih]
    · simp [batchify, hflush, ih]

theorem batchify_sizes (b : Nat) (hb : 0 < b) :
    ∀ (l : List Entity) (acc : List Entity), acc.length < b →
      (batchify b acc l).map List.length =
        List.replicate ((acc.length + l.length) / b) b ++
          (if (acc.length + l.length) % b = 0 then []
           else [(acc.length + l.length) % b]) := by
  intro l
  induction l with
  | nil =>
    intro acc hacc
    by_cases h : 0 < acc.length
    · have hdiv : acc.length / b = 0 := Nat.div_eq_of_lt hacc
      have hmod : acc.length % b = acc.length := Nat.mod_eq_of_lt hacc
      simp [batchify, h, hdiv, hmod, Nat.pos_iff_ne_zero.mp h]
    · have hz : acc = [] := by
        cases acc
        · rfl
        · simp at h
      simp [batchify, h, hz, Nat.zero_div, Nat.zero_mod]
  | cons d ds ih =>
    intro acc hacc
    by_cases hflush : b ≤ acc.length + 1
    · have hfull : acc.length + 1 = b := by omega
      have hn : acc.length + (d :: ds).length = ds.length + b := by
        simp [List.length_cons]; omega
      have hdiv : (ds.length + b) / b = ds.length / b + 1 :=
        Nat.add_div_right _ hb
      have hmod : (ds.length + b) % b = ds.length % b :=
        Nat.add_mod_right _ _
      rw [hn, hdiv, hmod]
      have hlhs : (batchify b acc (d :: ds)).map List.length =
          b :: (batchify b [] ds).map List.length := by
        simp [batchify, hflush]
        omega
      rw [hlhs, ih [] (by simpa using hb)]
      simp [List.replicate_succ]
    · have hn : acc.length + (d :: ds).length = (acc ++ [d]).length + ds.length := by
        simp [List.length_cons, List.length_append]
        omega
      rw [hn]
      have hlhs : batchify b acc (d :: ds) = batchify b (acc ++ [d]) ds := by
        simp [batchify, hflush]
      rw [hlhs]
      exact ih (acc ++ [d]) (by simp; omega)

/-! ### Decoder and validator facts feeding the claims -/

theorem vmem_int_false (n : Int) (ks : List Value)
    (hks : ∀ v ∈ ks, strOrNone v = true) :
    vmem (Value.int n) ks = false := by
  induction ks with
  | nil => rfl
  | cons v vs ih =>
    have hv := hks v (by simp)
    have hrest : ∀ w ∈ vs, strOrNone w = true := fun w hw => hks w (by simp [hw])
    cases v with
    | str s => simp [vmem, List.any_cons, pyEq] at ih ⊢; exact ih hrest
    | none => simp [vmem, List.any_cons, pyEq] at ih ⊢; exact ih hrest
    | int m => simp [strOrNone] at hv
    | bool bb => simp [strOrNone] at hv

theorem types_dictify_int (row : List String) (d : Entity)
    (h : TypesHandler.dictify row = Except.ok d) :
    ∃ n, dget d "occurrence_id" = Value.int n := by
  rcases row with _ | ⟨a, rest⟩
  · simp [TypesHandler.dictify] at h
  · simp only [TypesHandler.dictify] at h
    cases hpi : pyInt a with
    | error ex => rw [hpi] at h; simp at h
    | ok n =>
      rw [hpi] at h
      dsimp only at h
      by_cases hlen : rest.length < 18
      · rw [if_pos hlen] at h; simp at h
      · rw [if_neg hlen] at h
        simp only [Except.ok.injEq] at h
        subst h
        refine ⟨n, ?_⟩
        rw [dget_empty_to_none]
        simp [dget_cons]

theorem occ_dictify_strOrNone (row : List String) (d : Entity)
    (h : OccurencesHandler.dictify row = Except.ok d) :
    strOrNone (dget d "occurrence_id") = true := by
  unfold OccurencesHandler.dictify at h
  by_cases hlen : row.length ≠ 75
  · rw [if_pos hlen] at h; simp at h
  · rw [if_neg hlen] at h
    rcases row with _ | ⟨a, rest⟩
    · simp at hlen
    · simp only [Except.ok.injEq] at h
      subst h
      have hocc : OccurencesHandler.occKeys.zip ((a :: rest).map Value.str) =
          ("occurrence_id", Value.str a) ::
            OccurencesHandler.occKeys.tail.zip (rest.map Value.str) := by
        simp [OccurencesHandler.occKeys]
      rw [hocc]
      have hd1 : dget (TransformHelper.transform_invalid_booleans
          (("occurrence_id", Value.str a) ::
            OccurencesHandler.occKeys.tail.zip (rest.map Value.str))
          OccurencesHandler.occBoolFields ["y", "t"]) "occurrence_id" =
          Value.str a := by
        rw [dget_invalid_booleans]
        have hmem : "occurrence_id" ∉ OccurencesHandler.occBoolFields := by decide
        rw [if_neg hmem]
        simp [dget_cons]
      rw [dget_empty_to_none, hd1]
      split
      · rfl
      · rfl

theorem handleLoop_types_empty (ks : List Value) (b : Nat) (hb : 0 < b)
    (raws : List (List String))
    (hdec : ∀ r ∈ raws, exceptOk (TypesHandler.dictify r) = true)
    (hks : ∀ v ∈ ks, strOrNone v = true) :
    handleLoop TypesHandler.dictify false ks b [] raws = Except.ok [] := by
  induction raws with
  | nil => rfl
  | cons r rs ih =>
    have h1 := hdec r (by simp)
    cases hdr : TypesHandler.dictify r with
    | error ex => rw [hdr] at h1; simp [exceptOk] at h1
    | ok d =>
      obtain ⟨n, hn⟩ := types_dictify_int r d hdr
      have hv : vmem (dget d "occurrence_id") ks = false := by
        rw [hn]; exact vmem_int_false n ks hks
      have hnoflush : ¬ b ≤ (0 : Nat) := by omega
      calc handleLoop TypesHandler.dictify false ks b [] (r :: rs)
          = handleLoop TypesHandler.dictify false ks b [] rs := by
            simp [handleLoop, hdr, hv, hnoflush]
        _ = Except.ok [] := ih (fun r2 hr2 => hdec r2 (by simp [hr2]))

theorem getSet_eq_of_sets (st1 st2 : VState) (k : String)
    (h : st1.sets = st2.sets) : getSet st1 k = getSet st2 k := by
  unfold getSet
  rw [h]

theorem getSet_validate_unique_guid (st : VState) (e : Entity) :
    getSet (Validator.validate_unique st "corpus_occurrences" "guid" e).fst
      "valid_occurrence_ids" = getSet st "valid_occurrence_ids" := by
  unfold Validator.validate_unique
  by_cases hc : dget e "guid" ≠ Value.none ∧
      vmem (dget e "guid") (getSet st ("corpus_occurrences" ++ ":" ++ "guid")) = true
  · simp only [if_pos hc]
    rfl
  · simp only [if_neg hc]
    exact getSet_putSet_other _ _ _ _ (by decide)

theorem validate_unique_snd_none_iff (st : VState) (t k : String) (e : Entity) :
    (Validator.validate_unique st t k e).snd = Option.none ↔
      (dget e k = Value.none ∨
        vmem (dget e k) (getSet st (t ++ ":" ++ k)) = false) := by
  unfold Validator.validate_unique
  by_cases hc : dget e k ≠ Value.none ∧
      vmem (dget e k) (getSet st (t ++ ":" ++ k)) = true
  · simp only [if_pos hc]
    simp [hc.1, hc.2]
  · simp only [if_neg hc]
    push_neg at hc
    constructor
    · intro _
      by_cases hn : dget e k = Value.none
      · exact Or.inl hn
      · refine Or.inr ?_
        cases hvm : vmem (dget e k) (getSet st (t ++ ":" ++ k))
        · rfl
        · exact absurd hvm (hc hn)
    · intro _
      trivial

theorem validate_unique_errors_dup (st : VState) (t k : String) (e : Entity)
    (h : (Validator.validate_unique st t k e).snd ≠ Option.none) :
    (Validator.validate_unique st t k e).fst.errors =
      st.errors ++ [(t, dget e "occurrence_id",
        "Duplicate " ++ k ++ " found", dget e k)] := by
  unfold Validator.validate_unique at h ⊢
  by_cases hc : dget e k ≠ Value.none ∧
      vmem (dget e k) (getSet st (t ++ ":" ++ k)) = true
  · simp only [if_pos hc]
    rfl
  · simp only [if_neg hc] at h
    simp at h

theorem validate_occurrence_validSet (st : VState) (e : Entity) :
    getSet (Validator.validate_occurrence st e).fst "valid_occurrence_ids" =
      if (Validator.validate_unique st "corpus_occurrences" "guid" e).snd =
          Option.none then
        setAdd (getSet st "valid_occurrence_ids") (dget e "occurrence_id")
      else getSet st "valid_occurrence_ids" := by
  have hres : getSet (Validator.validate_occurrence st e).fst
      "valid_occurrence_ids" =
      getSet (if (Validator.validate_unique st "corpus_occurrences" "guid"
          e).snd = Option.none then
        putSet (Validator.validate_unique st "corpus_occurrences" "guid"
            e).fst "valid_occurrence_ids"
          (setAdd (getSet (Validator.validate_unique st "corpus_occurrences"
              "guid" e).fst "valid_occurrence_ids") (dget e "occurrence_id"))
      else (Validator.validate_unique st "corpus_occurrences" "guid" e).fst)
        "valid_occurrence_ids" := by
    apply getSet_eq_of_sets
    unfold Validator.validate_occurrence
    dsimp only
    rw [sets_numeric_fold]
    dsimp only
    rw [sets_length_fold]
  rw [hres]
  by_cases hu : (Validator.validate_unique st "corpus_occurrences" "guid"
      e).snd = Option.none
  · rw [if_pos hu, if_pos hu, getSet_putSet_same, getSet_validate_unique_guid]
  · rw [if_neg hu, if_neg hu, getSet_validate_unique_guid]

theorem errors_mono_validate_occurrence (st : VState) (e : Entity)
    (x : String × Value × String × Value)
    (hx : x ∈ (Validator.validate_unique st "corpus_occurrences" "guid"
      e).fst.errors) :
    x ∈ (Validator.validate_occurrence st e).fst.errors := by
  unfold Validator.validate_occurrence
  dsimp only
  apply errors_mono_numeric_fold
  dsimp only
  apply errors_mono_length_fold
  by_cases hu : (Validator.validate_unique st "corpus_occurrences" "guid"
      e).snd = Option.none
  · rw [if_pos hu]
    exact hx
  · rw [if_neg hu]
    exact hx

theorem runBatches_spec (execute : List Entity → Except SinkErr Unit)
    (batches : List (List Entity)) :
    ∀ st : SinkState,
      (runBatches execute st batches).attempted = st.attempted ++ batches ∧
      (runBatches execute st batches).errorsLogged.length =
        st.errorsLogged.length +
          (batches.filter (fun bt => !(exceptOk (execute bt)))).length ∧
      (runBatches execute st batches).rollbacks =
        st.rollbacks +
          (batches.filter (fun bt => !(exceptOk (execute bt)))).length := by
  induction batches with
  | nil => intro st; simp [runBatches]
  | cons bt bts ih =>
    intro st
    have hrun : runBatches execute st (bt :: bts) =
        runBatches execute (batch_insert execute st bt) bts := rfl
    rw [hrun]
    obtain ⟨h1, h2, h3⟩ := ih (batch_insert execute st bt)
    cases hex : execute bt with
    | ok u =>
      refine ⟨?_, ?_, ?_⟩
      · rw [h1]
        simp [batch_insert, hex]
      · rw [h2]
        simp [batch_insert, hex, List.filter_cons, exceptOk]
      · rw [h3]
        simp [batch_insert, hex, List.filter_cons, exceptOk]
    | error er =>
      refine ⟨?_, ?_, ?_⟩
      · rw [h1]
        simp [batch_insert, hex]
      · rw [h2]
        simp [batch_insert, hex, List.filter_cons, exceptOk]
        omega
      · rw [h3]
        simp [batch_insert, hex, List.filter_cons, exceptOk]
        omega

theorem pyInt_isOk (s : String) :
    (∃ n, pyInt s = Except.ok n) ↔ pyIntOk s = true := by
  unfold pyInt pyIntOk
  by_cases hc : (!(stripSign (trimWs s.data)).snd.isEmpty &&
      (stripSign (trimWs s.data)).snd.all Char.isDigit) = true
  · simp only [hc, if_pos]
    simp
  · simp only [hc]
    simp at hc
    simp [hc]

/-! ### Claims -/

/-- C1, counterexample: the claim says every column count other than the
kind's expected count fails to decode for all four kinds, but a Media row
with 14 columns (≠ 13) decodes to a field mapping without an exception. -/
theorem claim1_counterexample :
    (List.replicate 14 "x").length ≠ 13 ∧
      exceptOk (MediaHandler.dictify (List.replicate 14 "x")) = true := by
  constructor
  · decide
  · decide

/-- C1 (amended): Occurrence and Annotation decoding raise `ValueError` on
any column count other than 75/34; Type and Media decoding perform no
column-count check — a row with fewer than the 19/13 consumed columns raises
(`IndexError`, or `ValueError` for a bad Type key), while extra columns are
ignored: a Media row with ≥ 13 columns always decodes, and a Type row with
≥ 19 columns decodes exactly when its first column parses as an integer. -/
theorem claim1_thm :
    (∀ row : List String, row.length ≠ 75 →
      OccurencesHandler.dictify row = Except.error PyExc.valueError) ∧
    (∀ row : List String, row.length ≠ 34 →
      AnnotationsHandler.dictify row = Except.error PyExc.valueError) ∧
    (∀ row : List String, row.length < 13 →
      MediaHandler.dictify row = Except.error PyExc.indexError) ∧
    (∀ row : List String, 13 ≤ row.length →
      ∃ d, MediaHandler.dictify row = Except.ok d) ∧
    (TypesHandler.dictify [] = Except.error PyExc.indexError) ∧
    (∀ (a : String) (rest : List String), rest.length < 18 →
      ∀ d, TypesHandler.dictify (a :: rest) ≠ Except.ok d) ∧
    (∀ (a : String) (rest : List String), 18 ≤ rest.length →
      ((∃ d, TypesHandler.dictify (a :: rest) = Except.ok d) ↔
        pyIntOk a = true)) := by
  refine ⟨?_, ?_, ?_, ?_, rfl, ?_, ?_⟩
  · intro row h
    unfold OccurencesHandler.dictify
    rw [if_pos h]
  · intro row h
    unfold AnnotationsHandler.dictify
    rw [if_pos h]
  · intro row h
    unfold MediaHandler.dictify
    rw [if_pos h]
  · intro row h
    unfold MediaHandler.dictify
    rw [if_neg (by omega)]
    exact ⟨_, rfl⟩
  · intro a rest h d
    simp only [TypesHandler.dictify]
    cases hpi : pyInt a with
    | error ex => simp
    | ok n =>
      dsimp only
      rw [if_pos h]
      simp
  · intro a rest h
    simp only [TypesHandler.dictify]
    rw [← pyInt_isOk]
    cases hpi : pyInt a with
    | error ex =>
      dsimp only
      simp
    | ok n =>
      dsimp only
      rw [if_neg (by omega)]
      simp

/-- C1, witness for the amended claim at concrete inputs: a 1-column
Occurrence row raises, and a 14-column Media row decodes. -/
theorem claim1_witness :
    ((["x"] : List String).length ≠ 75 ∧
      OccurencesHandler.dictify ["x"] = Except.error PyExc.valueError) ∧
    ((13 : Nat) ≤ (List.replicate 14 "y").length ∧
      ∃ d, MediaHandler.dictify (List.replicate 14 "y") = Except.ok d) :=
  ⟨⟨by decide, claim1_thm.1 ["x"] (by decide)⟩,
   ⟨by decide, claim1_thm.2.2.2.1 (List.replicate 14 "y") (by decide)⟩⟩

/-- C2: Type decoding produces an integer `occurrence_id` while the valid-key
set built from Occurrence decoding holds only strings and nulls; an integer
equals no such value, so with `skip_fkey_validation=false` the handler
forwards zero Type rows to the sink (no batch is ever flushed) and
`validate_fkey` records an invalid-foreign-key error for every Type record. -/
theorem claim2_thm (ks : List Value) (hks : ∀ v ∈ ks, strOrNone v = true)
    (raws : List (List String))
    (hdec : ∀ r ∈ raws, exceptOk (TypesHandler.dictify r) = true)
    (b : Nat) (hb : 0 < b) (st : VState)
    (hvs : ∀ v ∈ getSet st "valid_occurrence_ids", strOrNone v = true) :
    handleLoop TypesHandler.dictify false ks b [] raws = Except.ok [] ∧
    (∀ (row : List String) (d : Entity),
      OccurencesHandler.dictify row = Except.ok d →
        strOrNone (dget d "occurrence_id") = true) ∧
    (∀ (r : List String) (d : Entity), TypesHandler.dictify r = Except.ok d →
      (∃ n, dget d "occurrence_id" = Value.int n) ∧
      vmem (dget d "occurrence_id") ks = false ∧
      (Validator.validate_fkey st "corpus_types" d).snd =
        some ("Invalid foreign key", dget d "occurrence_id") ∧
      (Validator.validate_fkey st "corpus_types" d).fst.errors =
        st.errors ++ [("corpus_types", dget d "occurrence_id",
          "Invalid foreign key", dget d "occurrence_id")]) := by
  refine ⟨handleLoop_types_empty ks b hb raws hdec hks,
    occ_dictify_strOrNone, ?_⟩
  intro r d hd
  obtain ⟨n, hn⟩ := types_dictify_int r d hd
  have hv2 : vmem (dget d "occurrence_id")
      (getSet st "valid_occurrence_ids") = false := by
    rw [hn]; exact vmem_int_false n _ hvs
  refine ⟨⟨n, hn⟩, by rw [hn]; exact vmem_int_false n ks hks, ?_, ?_⟩
  · unfold Validator.validate_fkey
    rw [if_neg (by simp [hv2])]
  · unfold Validator.validate_fkey
    rw [if_neg (by simp [hv2])]
    rfl

/-- C2, witness: a single 19-column Type row with key `7` against the valid
keys `{"7"}` is not forwarded, and its foreign-key check errors. -/
theorem claim2_witness :
    handleLoop TypesHandler.dictify false [Value.str "7"] 1 []
      [["7", "s1", "s2", "s3", "s4", "s5", "s6", "s7", "s8", "s9", "s10",
        "s11", "s12", "s13", "s14", "s15", "s16", "s17", "s18"]] =
      Except.ok [] :=
  (claim2_thm [Value.str "7"] (by decide)
    [["7", "s1", "s2", "s3", "s4", "s5", "s6", "s7", "s8", "s9", "s10",
      "s11", "s12", "s13", "s14", "s15", "s16", "s17", "s18"]]
    (by decide) 1 (by decide) initVState (by decide)).1

/-- C3 (code bug): `validate_numeric` on a non-null, non-decimal value —
`Decimal("abc")` raises `decimal.InvalidOperation`, which the
`except ValueError` clause does not catch: the exception propagates out of
`validate_numeric` (halting the validation run) and no error is recorded,
contrary to the claim and the spec. -/
theorem claim3_thm :
    Validator.validate_numeric initVState "corpus_occurrences"
      "decimal_latitude"
      [("occurrence_id", Value.str "O1"),
       ("decimal_latitude", Value.str "abc")] =
      (initVState, some PyExc.invalidOperation) := by
  decide

/-- C5: with `skip_fkey_validation=false` the rows handed to the sink (the
concatenation of all flushed batches, in order) are exactly the decoded rows
whose `occurrence_id` is a member of the valid-key set; with
`skip_fkey_validation=true` every decoded row is forwarded. -/
theorem claim5_thm (ks : List Value) (rows : List Entity) (b : Nat)
    (hb : 0 < b) :
    (∃ bs, handleLoop pureDecode false ks b [] rows = Except.ok bs ∧
      bs.flatten = rows.filter
        (fun d => vmem (dget d "occurrence_id") ks) ∧
      (∀ d : Entity, d ∈ bs.flatten ↔
        d ∈ rows ∧ vmem (dget d "occurrence_id") ks = true)) ∧
    (∃ bs, handleLoop pureDecode true ks b [] rows = Except.ok bs ∧
      bs.flatten = rows) := by
  constructor
  · refine ⟨batchify b [] (appFilter false ks rows),
      handleLoop_eq_batchify false ks b hb rows [] (by simpa using hb),
      ?_, ?_⟩
    · rw [batchify_flatten]
      simp [appFilter]
    · intro d
      rw [batchify_flatten]
      simp [appFilter, List.mem_filter]
  · refine ⟨batchify b [] (appFilter true ks rows),
      handleLoop_eq_batchify true ks b hb rows [] (by simpa using hb), ?_⟩
    rw [batchify_flatten]
    simp [appFilter]

/-- C5, witness: valid keys `{"OCC1","OCC2"}`, rows keyed `OCC1` and `OCC3`;
only the `OCC1` row reaches the sink. -/
theorem claim5_witness :
    ∃ bs, handleLoop pureDecode false [Value.str "OCC1", Value.str "OCC2"]
        10 [] [[("occurrence_id", Value.str "OCC1")],
               [("occurrence_id", Value.str "OCC3")]] = Except.ok bs ∧
      bs.flatten = [[("occurrence_id", Value.str "OCC1")]] := by
  obtain ⟨⟨bs, h1, h2, _⟩, _⟩ := claim5_thm
    [Value.str "OCC1", Value.str "OCC2"]
    [[("occurrence_id", Value.str "OCC1")],
     [("occurrence_id", Value.str "OCC3")]] 10 (by decide)
  refine ⟨bs, h1, ?_⟩
  rw [h2]
  decide

/-- C6: with batch size `b > 0` and `n` rows surviving the filter, the sink
receives `⌊n/b⌋` batches of exactly `b` rows followed by a final batch of
`n mod b` rows when `n mod b > 0`, the concatenation being the surviving rows
in input order. -/
theorem claim6_thm (ks : List Value) (rows : List Entity) (b : Nat)
    (hb : 0 < b) (skip : Bool) :
    ∃ bs, handleLoop pureDecode skip ks b [] rows = Except.ok bs ∧
      bs.flatten = appFilter skip ks rows ∧
      bs.map List.length =
        List.replicate ((appFilter skip ks rows).length / b) b ++
          (if (appFilter skip ks rows).length % b = 0 then []
           else [(appFilter skip ks rows).length % b]) := by
  refine ⟨batchify b [] (appFilter skip ks rows),
    handleLoop_eq_batchify skip ks b hb rows [] (by simpa using hb), ?_, ?_⟩
  · rw [batchify_flatten]
    simp
  · have h := batchify_sizes b hb (appFilter skip ks rows) []
      (by simpa using hb)
    simpa using h

/-- C6, witness: batch size 2 and 5 surviving rows give exactly the batch
sizes `[2, 2, 1]`. -/
theorem claim6_witness :
    ∃ bs, handleLoop pureDecode true [] 2 []
        [[("occurrence_id", Value.str "1")], [("occurrence_id", Value.str "2")],
         [("occurrence_id", Value.str "3")], [("occurrence_id", Value.str "4")],
         [("occurrence_id", Value.str "5")]] = Except.ok bs ∧
      bs.map List.length = [2, 2, 1] := by
  obtain ⟨bs, h1, _, h3⟩ := claim6_thm []
    [[("occurrence_id", Value.str "1")], [("occurrence_id", Value.str "2")],
     [("occurrence_id", Value.str "3")], [("occurrence_id", Value.str "4")],
     [("occurrence_id", Value.str "5")]] 2 (by decide) true
  refine ⟨bs, h1, ?_⟩
  rw [h3]
  decide

/-- C7: `batch_insert` catches any error `execute` raises, logs it, rolls
back, and returns normally (it is a total function into `SinkState`), so a
run over any batch sequence with exactly one failing batch attempts every
batch and logs exactly one error with one rollback. -/
theorem claim7_thm (execute : List Entity → Except SinkErr Unit)
    (batches : List (List Entity))
    (hone : (batches.filter (fun bt => !(exceptOk (execute bt)))).length = 1) :
    (runBatches execute initSink batches).attempted = batches ∧
    (runBatches execute initSink batches).errorsLogged.length = 1 ∧
    (runBatches execute initSink batches).rollbacks = 1 := by
  obtain ⟨h1, h2, h3⟩ := runBatches_spec execute batches initSink
  rw [hone] at h2 h3
  refine ⟨?_, ?_, ?_⟩
  · rw [h1]
    simp [initSink]
  · rw [h2]
    simp [initSink]
  · rw [h3]
    simp [initSink]

/-- Sink bulk-insert model for the C7 witness: the second of three batches
raises a constraint violation. -/
def sinkEx : List Entity → Except SinkErr Unit := fun bt =>
  if bt = [[("occurrence_id", Value.str "2")]] then
    Except.error SinkErr.constraintViolation
  else Except.ok ()

/-- C7, witness: three batches with the second failing — all three are
attempted and exactly one error and rollback are recorded. -/
theorem claim7_witness :
    (([[[("occurrence_id", Value.str "1")]], [[("occurrence_id", Value.str "2")]],
       [[("occurrence_id", Value.str "3")]]].filter
        (fun bt => !(exceptOk (sinkEx bt)))).length = 1) ∧
    (runBatches sinkEx initSink
      [[[("occurrence_id", Value.str "1")]], [[("occurrence_id", Value.str "2")]],
       [[("occurrence_id", Value.str "3")]]]).attempted =
      [[[("occurrence_id", Value.str "1")]], [[("occurrence_id", Value.str "2")]],
       [[("occurrence_id", Value.str "3")]]] ∧
    (runBatches sinkEx initSink
      [[[("occurrence_id", Value.str "1")]], [[("occurrence_id", Value.str "2")]],
       [[("occurrence_id", Value.str "3")]]]).errorsLogged.length = 1 ∧
    (runBatches sinkEx initSink
      [[[("occurrence_id", Value.str "1")]], [[("occurrence_id", Value.str "2")]],
       [[("occurrence_id", Value.str "3")]]]).rollbacks = 1 := by
  have h := claim7_thm sinkEx
    [[[("occurrence_id", Value.str "1")]], [[("occurrence_id", Value.str "2")]],
     [[("occurrence_id", Value.str "3")]]] (by decide)
  exact ⟨by decide, h.1, h.2.1, h.2.2⟩

/-! ### Annotation decode lemmas -/

/-- The 34 field names of a decoded Annotation mapping, in insertion order. -/
def annotFieldKeys : List String :=
  ["occurrence_id", "current_annotation", "sequence_number", "family",
   "scientific_name", "notho_genus", "genus", "notho_species",
   "specific_epithet", "specific_authors", "infraspecific_rank",
   "notho_infraspecies", "infraspecific_epithet", "infraspecific_authors",
   "hybrid_symbol", "notho_genus_2", "genus_2", "notho_species_2",
   "specific_epithet_2", "specific_authors_2", "infraspecific_rank_2",
   "notho_infraspecies_2", "infraspecific_epithet_2",
   "infraspecific_authors_2", "cultivar", "name_qualifier",
   "qualifier_position", "nomenclatural_code", "annotated_by",
   "day_annotated", "month_annotated", "year_annotated",
   "annotation_references", "annotation_remarks"]

theorem fieldsNormal_keys (g : Nat → String) :
    (AnnotationsHandler.fieldsNormal g).map Prod.fst = annotFieldKeys := rfl

theorem fieldsAlpha_keys (g : Nat → String) :
    (AnnotationsHandler.fieldsAlpha g).map Prod.fst = annotFieldKeys := rfl

theorem fieldsNormal_seq (g : Nat → String) :
    dget (AnnotationsHandler.fieldsNormal g) "sequence_number" =
      Value.str (g 2) := by
  simp [AnnotationsHandler.fieldsNormal, dget_cons]

theorem fieldsNormal_family (g : Nat → String) :
    dget (AnnotationsHandler.fieldsNormal g) "family" = Value.str (g 3) := by
  simp [AnnotationsHandler.fieldsNormal, dget_cons]

theorem fieldsNormal_day (g : Nat → String) :
    dget (AnnotationsHandler.fieldsNormal g) "day_annotated" =
      AnnotationsHandler.icbnToNone (g 29) := by
  simp [AnnotationsHandler.fieldsNormal, dget_cons]

theorem fieldsNormal_month (g : Nat → String) :
    dget (AnnotationsHandler.fieldsNormal g) "month_annotated" =
      AnnotationsHandler.monthVal (g 30) := by
  simp [AnnotationsHandler.fieldsNormal, dget_cons]

theorem fieldsNormal_annotatedBy (g : Nat → String) :
    dget (AnnotationsHandler.fieldsNormal g) "annotated_by" =
      AnnotationsHandler.annotatedByVal (g 28) (g 30) (g 31) := by
  simp [AnnotationsHandler.fieldsNormal, dget_cons]

theorem fieldsNormal_year (g : Nat → String) :
    dget (AnnotationsHandler.fieldsNormal g) "year_annotated" =
      (if g 30 = "ICBN" then Value.none else Value.str (g 31)) := by
  simp [AnnotationsHandler.fieldsNormal, dget_cons]

theorem fieldsAlpha_seq (g : Nat → String) :
    dget (AnnotationsHandler.fieldsAlpha g) "sequence_number" = Value.none := by
  simp [AnnotationsHandler.fieldsAlpha, dget_cons]

theorem fieldsAlpha_family (g : Nat → String) :
    dget (AnnotationsHandler.fieldsAlpha g) "family" = Value.str (g 2) := by
  simp [AnnotationsHandler.fieldsAlpha, dget_cons]

/-- Field lookup through the post-decode transforms, for a field other than
`sequence_number` and `current_annotation`: only blank-to-null applies. -/
theorem dget_post (d : Entity) (k : String)
    (hk1 : k ≠ "sequence_number") (hk2 : k ≠ "current_annotation")
    (hkmem : k ∈ d.map Prod.fst) :
    dget (AnnotationsHandler.post d) k =
      (if dget d k = Value.str "" then Value.none else dget d k) := by
  have hb : dget (TransformHelper.transform_invalid_booleans d
      ["current_annotation"] ["y", "t"]) k = dget d k := by
    rw [dget_invalid_booleans, if_neg (by simp [hk2])]
  have he : dget (TransformHelper.transform_empty_to_none
      (TransformHelper.transform_invalid_booleans d
        ["current_annotation"] ["y", "t"])
      ((TransformHelper.transform_invalid_booleans d
        ["current_annotation"] ["y", "t"]).map Prod.fst)) k =
      (if dget d k = Value.str "" then Value.none else dget d k) := by
    rw [dget_empty_to_none, hb, keys_invalid_booleans]
    by_cases hv : dget d k = Value.str ""
    · rw [if_pos ⟨hkmem, hv⟩, if_pos hv]
    · rw [if_neg (fun hc => hv hc.2), if_neg hv]
  unfold AnnotationsHandler.post
  dsimp only
  rw [dget_question_mark, he]
  rw [if_neg (fun hc => hk1 (by simpa using hc.1))]

/-- Field lookup through the post-decode transforms for `sequence_number`:
blank-to-null, then the `"?"` sentinel. -/
theorem dget_post_seqnum (d : Entity)
    (hkmem : "sequence_number" ∈ d.map Prod.fst) :
    dget (AnnotationsHandler.post d) "sequence_number" =
      (if dget d "sequence_number" = Value.str "" then Value.none
       else if dget d "sequence_number" = Value.str "?" then Value.none
       else dget d "sequence_number") := by
  have hb : dget (TransformHelper.transform_invalid_booleans d
      ["current_annotation"] ["y", "t"]) "sequence_number" =
      dget d "sequence_number" := by
    rw [dget_invalid_booleans, if_neg (by decide)]
  have he : dget (TransformHelper.transform_empty_to_none
      (TransformHelper.transform_invalid_booleans d
        ["current_annotation"] ["y", "t"])
      ((TransformHelper.transform_invalid_booleans d
        ["current_annotation"] ["y", "t"]).map Prod.fst)) "sequence_number" =
      (if dget d "sequence_number" = Value.str "" then Value.none
       else dget d "sequence_number") := by
    rw [dget_empty_to_none, hb, keys_invalid_booleans]
    by_cases hv : dget d "sequence_number" = Value.str ""
    · rw [if_pos ⟨hkmem, hv⟩, if_pos hv]
    · rw [if_neg (fun hc => hv hc.2), if_neg hv]
  unfold AnnotationsHandler.post
  dsimp only
  rw [dget_question_mark, he]
  by_cases hv : dget d "sequence_number" = Value.str ""
  · simp [hv]
  · by_cases hq : dget d "sequence_number" = Value.str "?"
    · simp [hv, hq]
    · simp [hv, hq]

/-- A well-formed (34-column, non-empty third column) Annotation row decodes
without an exception, into the alpha or normal layout according to the first
character of the sequence-number column. -/
theorem annDictify_ok (row : List String) (hlen : row.length = 34)
    (h2 : row.getD 2 "" ≠ "") :
    AnnotationsHandler.dictify row =
      if firstAlpha (row.getD 2 "") then
        Except.ok (AnnotationsHandler.post
          (AnnotationsHandler.fieldsAlpha (fun i => row.getD i "")))
      else
        Except.ok (AnnotationsHandler.post
          (AnnotationsHandler.fieldsNormal (fun i => row.getD i ""))) := by
  unfold AnnotationsHandler.dictify
  rw [if_neg (by omega)]
  dsimp only
  rw [if_neg h2]

/-- C4, counterexample: in a 34-column row whose day field is `"ICBN"` but
whose month field is `"5"`, the decoded mapping keeps `annotated_by` from the
`annotated_by` column (`"Smith"`) and `year_annotated` from the year column
(`"1999"`) — the claimed consumption of the year slot does not happen on a
day of `"ICBN"`. -/
theorem claim4_counterexample :
    (AnnotationsHandler.dictify
      (["O1", "y", "1", "Fam"] ++ List.replicate 24 "" ++
        ["Smith", "ICBN", "5", "1999", "r", "m"])).map
      (fun d => (dget d "day_annotated", dget d "annotated_by",
        dget d "year_annotated")) =
      Except.ok (Value.none, Value.str "Smith", Value.str "1999") := by
  decide

/-- C4 (amended): a day field of `"ICBN"` only yields `day_annotated = null`;
it is a month field of `"ICBN"` that causes `annotated_by` to be populated
from the raw value that would otherwise become `year_annotated` (nulled if
empty) with `year_annotated = null`, while with a month other than `"ICBN"`
the year column becomes `year_annotated`.  (Stated on the normal
sequence-number layout.) -/
theorem claim4_thm (a0 a1 a2 a3 a4 a5 a6 a7 a8 a9 a10 a11 a12 a13 a14 a15
    a16 a17 a18 a19 a20 a21 a22 a23 a24 a25 a26 a27 a28 a29 a30 a31 a32 a33 :
    String) (h2 : a2 ≠ "") (hna : firstAlpha a2 = false) :
    ∃ d, AnnotationsHandler.dictify
        [a0, a1, a2, a3, a4, a5, a6, a7, a8, a9, a10, a11, a12, a13, a14,
         a15, a16, a17, a18, a19, a20, a21, a22, a23, a24, a25, a26, a27,
         a28, a29, a30, a31, a32, a33] = Except.ok d ∧
      (a29 = "ICBN" → dget d "day_annotated" = Value.none) ∧
      (a30 = "ICBN" → dget d "month_annotated" = Value.none ∧
        dget d "annotated_by" =
          (if a31 = "" then Value.none else Value.str a31) ∧
        dget d "year_annotated" = Value.none) ∧
      (a30 ≠ "ICBN" → dget d "year_annotated" =
        (if a31 = "" then Value.none else Value.str a31)) := by
  have hd := annDictify_ok
    [a0, a1, a2, a3, a4, a5, a6, a7, a8, a9, a10, a11, a12, a13, a14, a15,
     a16, a17, a18, a19, a20, a21, a22, a23, a24, a25, a26, a27, a28, a29,
     a30, a31, a32, a33] (by simp) (by simpa using h2)
  rw [if_neg (by simp [hna])] at hd
  refine ⟨_, hd, ?_, ?_, ?_⟩
  · intro h29
    rw [dget_post _ _ (by decide) (by decide)
      (by rw [fieldsNormal_keys]; decide)]
    rw [fieldsNormal_day]
    simp [AnnotationsHandler.icbnToNone, h29]
  · intro h30
    refine ⟨?_, ?_, ?_⟩
    · rw [dget_post _ _ (by decide) (by decide)
        (by rw [fieldsNormal_keys]; decide)]
      rw [fieldsNormal_month]
      simp [AnnotationsHandler.monthVal, h30]
    · rw [dget_post _ _ (by decide) (by decide)
        (by rw [fieldsNormal_keys]; decide)]
      rw [fieldsNormal_annotatedBy]
      simp [AnnotationsHandler.annotatedByVal, h30]
    · rw [dget_post _ _ (by decide) (by decide)
        (by rw [fieldsNormal_keys]; decide)]
      rw [fieldsNormal_year]
      simp [h30]
  · intro h30
    rw [dget_post _ _ (by decide) (by decide)
      (by rw [fieldsNormal_keys]; decide)]
    rw [fieldsNormal_year]
    have hg30 : List.getD [a0, a1, a2, a3, a4, a5, a6, a7, a8, a9, a10, a11,
        a12, a13, a14, a15, a16, a17, a18, a19, a20, a21, a22, a23, a24,
        a25, a26, a27, a28, a29, a30, a31, a32, a33] 30 "" = a30 := rfl
    simp [hg30, h30]

/-- C4, witness: the amended rule at a concrete row whose month field is
`"ICBN"` — `annotated_by` takes `"Jones"` from the year slot and
`year_annotated` is null. -/
theorem claim4_witness :
    ∃ d, AnnotationsHandler.dictify
        ["O1", "y", "1", "Fam", "", "", "", "", "", "", "", "", "", "", "",
         "", "", "", "", "", "", "", "", "", "", "", "", "", "Smith", "2",
         "ICBN", "Jones", "r", "m"] = Except.ok d ∧
      dget d "month_annotated" = Value.none ∧
      dget d "annotated_by" = Value.str "Jones" ∧
      dget d "year_annotated" = Value.none := by
  obtain ⟨d, hd, _, h3, _⟩ := claim4_thm "O1" "y" "1" "Fam" "" "" "" "" "" ""
    "" "" "" "" "" "" "" "" "" "" "" "" "" "" "" "" "" "" "Smith" "2" "ICBN"
    "Jones" "r" "m" (by decide) (by decide)
  obtain ⟨hm, ha, hy⟩ := h3 rfl
  exact ⟨d, hd, hm, by simpa using ha, hy⟩

/-- C8: `validate_occurrence` inserts the occurrence's key into the
valid-occurrence-key set exactly when the `guid` uniqueness check returns no
error (the guid is null or not previously seen); a duplicate-guid occurrence
is flagged with a recorded error and its key is not added. -/
theorem claim8_thm (st : VState) (e : Entity) :
    (vmem (dget e "occurrence_id")
        (getSet (Validator.validate_occurrence st e).fst
          "valid_occurrence_ids") = true ↔
      ((Validator.validate_unique st "corpus_occurrences" "guid" e).snd =
          Option.none ∨
        vmem (dget e "occurrence_id")
          (getSet st "valid_occurrence_ids") = true)) ∧
    ((Validator.validate_unique st "corpus_occurrences" "guid" e).snd =
        Option.none ↔
      (dget e "guid" = Value.none ∨
        vmem (dget e "guid")
          (getSet st ("corpus_occurrences" ++ ":" ++ "guid")) = false)) ∧
    ((Validator.validate_unique st "corpus_occurrences" "guid" e).snd ≠
        Option.none →
      ("corpus_occurrences", dget e "occurrence_id", "Duplicate guid found",
        dget e "guid") ∈ (Validator.validate_occurrence st e).fst.errors) := by
  refine ⟨?_, validate_unique_snd_none_iff st "corpus_occurrences" "guid" e, ?_⟩
  · rw [validate_occurrence_validSet]
    by_cases hu : (Validator.validate_unique st "corpus_occurrences" "guid"
        e).snd = Option.none
    · rw [if_pos hu]
      simp [hu, vmem_setAdd_self]
    · rw [if_neg hu]
      simp [hu]
  · intro h
    apply errors_mono_validate_occurrence
    rw [validate_unique_errors_dup st _ _ e h]
    have hmsg : "Duplicate " ++ "guid" ++ " found" = "Duplicate guid found" := by
      decide
    rw [hmsg]
    simp

/-- First Occurrence entity for the C8 witness. -/
def occEntA : Entity :=
  [("occurrence_id", Value.str "A"), ("guid", Value.str "g1")]

/-- Second Occurrence entity (duplicate guid) for the C8 witness. -/
def occEntB : Entity :=
  [("occurrence_id", Value.str "B"), ("guid", Value.str "g1")]

/-- C8, witness: after validating an occurrence with guid `g1`, a second
occurrence with the same guid fails the uniqueness check and the duplicate
error is recorded by `validate_occurrence`. -/
theorem claim8_witness :
    ((Validator.validate_unique
        (Validator.validate_occurrence initVState occEntA).fst
        "corpus_occurrences" "guid" occEntB).snd ≠ Option.none) ∧
    ("corpus_occurrences", Value.str "B", "Duplicate guid found",
        Value.str "g1") ∈
      (Validator.validate_occurrence
        (Validator.validate_occurrence initVState occEntA).fst
        occEntB).fst.errors := by
  refine ⟨by decide, ?_⟩
  have h := (claim8_thm (Validator.validate_occurrence initVState
    occEntA).fst occEntB).2.2 (by decide)
  exact h

/-- C9, counterexample: the raw value `"?"` following `current_annotation`
is non-empty with a non-alphabetic first character, so the claim's
"otherwise" branch asserts `sequence_number = "?"`; the decoder instead
nulls it via the `"?"` sentinel transform. -/
theorem claim9_counterexample :
    (AnnotationsHandler.dictify
      (["O1", "y", "?", "Fam"] ++ List.replicate 24 "" ++
        ["Smith", "1", "2", "1999", "r", "m"])).map
      (fun d => dget d "sequence_number") = Except.ok Value.none := by
  decide

/-- C9 (amended): if the non-empty raw value after `current_annotation`
starts with a letter, `sequence_number` is null and `family` is that value;
otherwise, provided the value is not the `"?"` sentinel, `sequence_number`
is that value and `family` takes the next raw value (null when empty). -/
theorem claim9_thm (a0 a1 a2 a3 a4 a5 a6 a7 a8 a9 a10 a11 a12 a13 a14 a15
    a16 a17 a18 a19 a20 a21 a22 a23 a24 a25 a26 a27 a28 a29 a30 a31 a32 a33 :
    String) (h2 : a2 ≠ "") :
    (firstAlpha a2 = true →
      ∃ d, AnnotationsHandler.dictify
          [a0, a1, a2, a3, a4, a5, a6, a7, a8, a9, a10, a11, a12, a13, a14,
           a15, a16, a17, a18, a19, a20, a21, a22, a23, a24, a25, a26, a27,
           a28, a29, a30, a31, a32, a33] = Except.ok d ∧
        dget d "sequence_number" = Value.none ∧
        dget d "family" = Value.str a2) ∧
    (firstAlpha a2 = false → a2 ≠ "?" →
      ∃ d, AnnotationsHandler.dictify
          [a0, a1, a2, a3, a4, a5, a6, a7, a8, a9, a10, a11, a12, a13, a14,
           a15, a16, a17, a18, a19, a20, a21, a22, a23, a24, a25, a26, a27,
           a28, a29, a30, a31, a32, a33] = Except.ok d ∧
        dget d "sequence_number" = Value.str a2 ∧
        dget d "family" = (if a3 = "" then Value.none else Value.str a3)) := by
  constructor
  · intro halpha
    have hd := annDictify_ok
      [a0, a1, a2, a3, a4, a5, a6, a7, a8, a9, a10, a11, a12, a13, a14, a15,
       a16, a17, a18, a19, a20, a21, a22, a23, a24, a25, a26, a27, a28, a29,
       a30, a31, a32, a33] (by simp) (by simpa using h2)
    rw [if_pos (by simpa using halpha)] at hd
    refine ⟨_, hd, ?_, ?_⟩
    · rw [dget_post_seqnum _ (by rw [fieldsAlpha_keys]; decide)]
      rw [fieldsAlpha_seq]
      simp
    · rw [dget_post _ _ (by decide) (by decide)
        (by rw [fieldsAlpha_keys]; decide)]
      rw [fieldsAlpha_family]
      simp [h2]
  · intro hna hq
    have hd := annDictify_ok
      [a0, a1, a2, a3, a4, a5, a6, a7, a8, a9, a10, a11, a12, a13, a14, a15,
       a16, a17, a18, a19, a20, a21, a22, a23, a24, a25, a26, a27, a28, a29,
       a30, a31, a32, a33] (by simp) (by simpa using h2)
    rw [if_neg (by simp [hna])] at hd
    refine ⟨_, hd, ?_, ?_⟩
    · rw [dget_post_seqnum _ (by rw [fieldsNormal_keys]; decide)]
      rw [fieldsNormal_seq]
      simp [h2, hq]
    · rw [dget_post _ _ (by decide) (by decide)
        (by rw [fieldsNormal_keys]; decide)]
      rw [fieldsNormal_family]
      simp

/-- C9, witness: the value `"Asteraceae"` after `current_annotation` yields
a null `sequence_number` and `family = "Asteraceae"`. -/
theorem claim9_witness :
    ∃ d, AnnotationsHandler.dictify
        ["O1", "y", "Asteraceae", "", "", "", "", "", "", "", "", "", "",
         "", "", "", "", "", "", "", "", "", "", "", "", "", "", "",
         "Smith", "1", "2", "1999", "r", "m"] = Except.ok d ∧
      dget d "sequence_number" = Value.none ∧
      dget d "family" = Value.str "Asteraceae" := by
  exact (claim9_thm "O1" "y" "Asteraceae" "" "" "" "" "" "" "" "" "" "" ""
    "" "" "" "" "" "" "" "" "" "" "" "" "" "" "Smith" "1" "2" "1999" "r" "m"
    (by decide)).1 (by decide)

/-- C10: a 34-column Annotation row whose third column is the empty string
makes `dictify` raise (`seq_num[0]` indexes an empty string), so Annotation
decoding is not total even on rows with the correct column count. -/
theorem claim10_thm (a0 a1 a3 a4 a5 a6 a7 a8 a9 a10 a11 a12 a13 a14 a15
    a16 a17 a18 a19 a20 a21 a22 a23 a24 a25 a26 a27 a28 a29 a30 a31 a32 a33 :
    String) :
    AnnotationsHandler.dictify
      [a0, a1, "", a3, a4, a5, a6, a7, a8, a9, a10, a11, a12, a13, a14, a15,
       a16, a17, a18, a19, a20, a21, a22, a23, a24, a25, a26, a27, a28, a29,
       a30, a31, a32, a33] = Except.error PyExc.indexError := by
  unfold AnnotationsHandler.dictify
  rw [if_neg (by simp)]
  dsimp only
  have hg : List.getD
      [a0, a1, "", a3, a4, a5, a6, a7, a8, a9, a10, a11, a12, a13, a14, a15,
       a16, a17, a18, a19, a20, a21, a22, a23, a24, a25, a26, a27, a28, a29,
       a30, a31, a32, a33] 2 "" = "" := rfl
  rw [if_pos hg]
